import Mathlib

/-!
Verification of the PV output / bill-savings calculation core of
`src/solar_app.py` (lines 79-92).  All numeric quantities are embedded
as rationals; the Python source computes with the same closed-form
formulas, so each definition below mirrors one assignment of the source.
-/

namespace SolarApp

/-- `cloud_efficiency = 1 - (clouds / 100 * 0.8)` (src/solar_app.py:79). -/
def cloud_efficiency (clouds : ℚ) : ℚ := 1 - clouds / 100 * (8 / 10)

/-- `heat_loss = max(0, (temp_c - 25) * 0.005)` (src/solar_app.py:80). -/
def heat_loss (temp_c : ℚ) : ℚ := max 0 ((temp_c - 25) * (5 / 1000))

/-- `temp_efficiency = 1 - heat_loss` (src/solar_app.py:81). -/
def temp_efficiency (temp_c : ℚ) : ℚ := 1 - heat_loss temp_c

/-- `actual_power = panel_power * cloud_efficiency * temp_efficiency`
(src/solar_app.py:84). -/
def actual_power (panel_power clouds temp_c : ℚ) : ℚ :=
  panel_power * cloud_efficiency clouds * temp_efficiency temp_c

/-- `daily_production = actual_power * 5` (src/solar_app.py:85). -/
def daily_production (panel_power clouds temp_c : ℚ) : ℚ :=
  actual_power panel_power clouds temp_c * 5

/-- `monthly_production = daily_production * 30` (src/solar_app.py:86). -/
def monthly_production (panel_power clouds temp_c : ℚ) : ℚ :=
  daily_production panel_power clouds temp_c * 30

/-- `old_bill = monthly_usage * tariff` (src/solar_app.py:89). -/
def old_bill (monthly_usage tariff : ℚ) : ℚ := monthly_usage * tariff

/-- `net_usage = max(0, monthly_usage - monthly_production)` (src/solar_app.py:90). -/
def net_usage (monthly_usage monthly_prod : ℚ) : ℚ :=
  max 0 (monthly_usage - monthly_prod)

/-- `new_bill = net_usage * tariff` (src/solar_app.py:91). -/
def new_bill (monthly_usage monthly_prod tariff : ℚ) : ℚ :=
  net_usage monthly_usage monthly_prod * tariff

/-- `savings = old_bill - new_bill` (src/solar_app.py:92). -/
def savings (monthly_usage monthly_prod tariff : ℚ) : ℚ :=
  old_bill monthly_usage tariff - new_bill monthly_usage monthly_prod tariff

/-- The user/system inputs consumed by the calculation core
(`panel_power`, `monthly_usage`, `tariff` in the source). -/
structure ROIInputs where
  ratedPowerKw : ℚ
  monthlyUsageKwh : ℚ
  tariffPerUnit : ℚ
deriving DecidableEq

/-- The weather fields consumed by the calculation core
(`clouds`, `temp_c` in the source; coordinates are display-only). -/
structure WeatherSnapshot where
  cloudCoverPercent : ℚ
  temperatureCelsius : ℚ
deriving DecidableEq

/-- All scalar values the calculation core produces (lines 79-92). -/
structure ROIResult where
  cloudEfficiency : ℚ
  temperatureEfficiency : ℚ
  actualPowerKw : ℚ
  dailyProductionKwh : ℚ
  monthlyProductionKwh : ℚ
  oldBill : ℚ
  netUsageKwh : ℚ
  newBill : ℚ
  savingsAmount : ℚ
deriving DecidableEq

/-- The calculation core as one function: the straight-line block
src/solar_app.py:79-92, packaging every intermediate value. -/
def compute (inputs : ROIInputs) (snapshot : WeatherSnapshot) : ROIResult :=
  let ce := cloud_efficiency snapshot.cloudCoverPercent
  let te := temp_efficiency snapshot.temperatureCelsius
  let ap := inputs.ratedPowerKw * ce * te
  let dp := ap * 5
  let mp := dp * 30
  let ob := inputs.monthlyUsageKwh * inputs.tariffPerUnit
  let nu := max 0 (inputs.monthlyUsageKwh - mp)
  let nb := nu * inputs.tariffPerUnit
  { cloudEfficiency := ce
    temperatureEfficiency := te
    actualPowerKw := ap
    dailyProductionKwh := dp
    monthlyProductionKwh := mp
    oldBill := ob
    netUsageKwh := nu
    newBill := nb
    savingsAmount := ob - nb }

/-- Helper: below (or at) the 25 degree rating point the heat loss is zero. -/
lemma heat_loss_of_le {t : ℚ} (h : t ≤ 25) : heat_loss t = 0 :=
  max_eq_left (by nlinarith)

/-- Helper: at or above the rating point the `max` in the heat loss is inert. -/
lemma heat_loss_of_ge {t : ℚ} (h : 25 ≤ t) : heat_loss t = (t - 25) * (5 / 1000) :=
  max_eq_right (by nlinarith)

/-- Helper: heat loss is never negative. -/
lemma heat_loss_nonneg (t : ℚ) : 0 ≤ heat_loss t := le_max_left 0 _

/-- C1: for every `ratedPowerKw > 0`, with `cloudCoverPercent = 0` and
`temperatureCelsius = 25`, `actualPowerKw` equals `ratedPowerKw` exactly:
no derating at the reference condition. -/
theorem actual_power_at_reference (p : ℚ) (hp : 0 < p) :
    actual_power p 0 25 = p := by
  unfold actual_power cloud_efficiency temp_efficiency heat_loss
  norm_num

/-- Witness for C1 at `ratedPowerKw = 5`. -/
theorem actual_power_at_reference_witness :
    (0 : ℚ) < 5 ∧ actual_power 5 0 25 = 5 :=
  ⟨by norm_num, actual_power_at_reference 5 (by norm_num)⟩

/-- C2 counterexample: the monotonicity claim as stated fails on the code.
At `ratedPowerKw = 5` and `temperatureCelsius = 250` (so the unclamped
`temp_efficiency` is negative), raising the cloud cover from 0 to 100
strictly increases `actual_power` instead of decreasing it. -/
theorem cloud_monotonicity_counterexample :
    actual_power 5 0 250 < actual_power 5 100 250 := by
  norm_num [actual_power, cloud_efficiency, temp_efficiency, heat_loss]

/-- C2 (amended): fix `ratedPowerKw > 0`.  If `temp_efficiency` is positive
(temperature below 225), strictly increasing the cloud cover strictly
decreases `actual_power`; and if `cloud_efficiency` is positive (cloud
cover below 125), strictly increasing the temperature above 25 strictly
decreases `actual_power`. -/
theorem actual_power_strict_antitone (p : ℚ) (hp : 0 < p) :
    (∀ c₁ c₂ t : ℚ, c₁ < c₂ → 0 < temp_efficiency t →
      actual_power p c₂ t < actual_power p c₁ t) ∧
    (∀ c t₁ t₂ : ℚ, 25 ≤ t₁ → t₁ < t₂ → 0 < cloud_efficiency c →
      actual_power p c t₂ < actual_power p c t₁) := by
  constructor
  · intro c₁ c₂ t hc ht
    unfold actual_power cloud_efficiency
    nlinarith [mul_pos hp ht, ht]
  · intro c t₁ t₂ h25 ht hc
    unfold actual_power temp_efficiency
    rw [heat_loss_of_ge h25, heat_loss_of_ge (by linarith : (25 : ℚ) ≤ t₂)]
    nlinarith [mul_pos hp hc]

/-- Witness for the amended C2: cloud cover 20 to 60 at 30 degrees, and
temperature 30 to 40 at cloud cover 20, both with `ratedPowerKw = 5`. -/
theorem actual_power_strict_antitone_witness :
    actual_power 5 60 30 < actual_power 5 20 30 ∧
    actual_power 5 20 40 < actual_power 5 20 30 := by
  have h := actual_power_strict_antitone 5 (by norm_num)
  refine ⟨h.1 20 60 30 (by norm_num) ?_, h.2 20 30 40 (by norm_num) (by norm_num) ?_⟩
  · rw [temp_efficiency, heat_loss_of_ge (by norm_num)]; norm_num
  · rw [cloud_efficiency]; norm_num

/-- C3: `savings` is by construction exactly `old_bill - new_bill`, and it
is nonnegative whenever usage, tariff and production are nonnegative. -/
theorem savings_identity_and_nonneg (u pr t : ℚ) :
    savings u pr t = old_bill u t - new_bill u pr t ∧
    (0 ≤ u → 0 ≤ t → 0 ≤ pr → 0 ≤ savings u pr t) := by
  refine ⟨rfl, fun hu ht hpr => ?_⟩
  unfold savings old_bill new_bill net_usage
  have h1 : max 0 (u - pr) ≤ u := max_le hu (by linarith)
  nlinarith [mul_le_mul_of_nonneg_right h1 ht]

/-- Witness for C3 at usage 350, production 150, tariff 8. -/
theorem savings_identity_and_nonneg_witness :
    savings 350 150 8 = old_bill 350 8 - new_bill 350 150 8 ∧
    (0 : ℚ) ≤ savings 350 150 8 := by
  have h := savings_identity_and_nonneg 350 150 8
  exact ⟨h.1, h.2 (by norm_num) (by norm_num) (by norm_num)⟩

/-- C4: `net_usage` is exactly `max 0 (usage - production)`, hence never
negative; when production strictly exceeds usage the net usage is zero and
so is the new bill. -/
theorem net_usage_clamped (u pr t : ℚ) :
    net_usage u pr = max 0 (u - pr) ∧ 0 ≤ net_usage u pr ∧
    (u < pr → net_usage u pr = 0 ∧ new_bill u pr t = 0) := by
  refine ⟨rfl, le_max_left 0 _, fun h => ?_⟩
  have h0 : net_usage u pr = 0 := max_eq_left (by linarith)
  refine ⟨h0, ?_⟩
  unfold new_bill
  rw [h0, zero_mul]

/-- Witness for C4 at usage 100, production 150, tariff 8. -/
theorem net_usage_clamped_witness :
    net_usage 100 150 = max 0 (100 - 150 : ℚ) ∧ (0 : ℚ) ≤ net_usage 100 150 ∧
    net_usage 100 150 = 0 ∧ new_bill 100 150 8 = 0 := by
  have h := net_usage_clamped 100 150 8
  have h2 := h.2.2 (by norm_num)
  exact ⟨h.1, h.2.1, h2.1, h2.2⟩

/-- C5: concrete scenario 2 of the spec: `ratedPowerKw=5`,
`cloudCoverPercent=100`, `temperatureCelsius=25`, `monthlyUsageKwh=350`,
`tariffPerUnit=8` gives `cloudEfficiency=0.2`, `actualPowerKw=1`,
`monthlyProductionKwh=150`, `netUsageKwh=200`, `newBill=1600`,
`savings=1200`. -/
theorem concrete_scenario_two :
    cloud_efficiency 100 = 2 / 10 ∧
    actual_power 5 100 25 = 1 ∧
    monthly_production 5 100 25 = 150 ∧
    net_usage 350 (monthly_production 5 100 25) = 200 ∧
    new_bill 350 (monthly_production 5 100 25) 8 = 1600 ∧
    savings 350 (monthly_production 5 100 25) 8 = 1200 := by
  norm_num [cloud_efficiency, actual_power, monthly_production, daily_production,
    net_usage, new_bill, old_bill, savings, temp_efficiency, heat_loss]

/-- C6: at or below the 25 degree rating temperature the heat loss is zero
and the temperature efficiency is exactly one (no bonus below rating). -/
theorem temp_efficiency_below_rating (t : ℚ) (h : t ≤ 25) :
    heat_loss t = 0 ∧ temp_efficiency t = 1 := by
  have h0 : heat_loss t = 0 := heat_loss_of_le h
  refine ⟨h0, ?_⟩
  rw [temp_efficiency, h0, sub_zero]

/-- Witness for C6 at 10 degrees. -/
theorem temp_efficiency_below_rating_witness :
    heat_loss 10 = 0 ∧ temp_efficiency 10 = 1 :=
  temp_efficiency_below_rating 10 (by norm_num)

/-- C7: the efficiencies are never clamped below zero.  Cloud cover above
125 makes `cloud_efficiency` negative, and with a positive rated power it
makes `actual_power` negative whenever the temperature efficiency stays
positive; symmetrically a temperature extreme enough to drive
`temp_efficiency` negative makes `actual_power` negative whenever the
cloud efficiency stays positive. -/
theorem no_lower_clamp_negative_power (p c t : ℚ) (hp : 0 < p) :
    (125 < c → cloud_efficiency c < 0) ∧
    (125 < c → 0 < temp_efficiency t → actual_power p c t < 0) ∧
    (temp_efficiency t < 0 → 0 < cloud_efficiency c → actual_power p c t < 0) := by
  refine ⟨fun hc => ?_, fun hc ht => ?_, fun ht hc => ?_⟩
  · unfold cloud_efficiency; nlinarith
  · have hce : cloud_efficiency c < 0 := by unfold cloud_efficiency; nlinarith
    exact mul_neg_of_neg_of_pos (mul_neg_of_pos_of_neg hp hce) ht
  · exact mul_neg_of_pos_of_neg (mul_pos hp hc) ht

/-- Witness for C7 at rated power 5, cloud cover 150, temperatures 25 and
300 (the latter drives `temp_efficiency` negative at cloud cover 0). -/
theorem no_lower_clamp_negative_power_witness :
    cloud_efficiency 150 < 0 ∧ actual_power 5 150 25 < 0 ∧
    actual_power 5 0 300 < 0 := by
  have h1 := no_lower_clamp_negative_power 5 150 25 (by norm_num)
  have h2 := no_lower_clamp_negative_power 5 0 300 (by norm_num)
  refine ⟨h1.1 (by norm_num), h1.2.1 (by norm_num) ?_, h2.2.2 ?_ ?_⟩
  · rw [temp_efficiency, heat_loss_of_le (by norm_num)]; norm_num
  · rw [temp_efficiency, heat_loss_of_ge (by norm_num)]; norm_num
  · rw [cloud_efficiency]; norm_num

/-- C8: the monthly production collapses to `actual_power * 150`
(5 peak-sun-hours per day times a 30-day month). -/
theorem monthly_production_collapsed (p c t : ℚ) :
    monthly_production p c t = actual_power p c t * 150 := by
  unfold monthly_production daily_production
  ring

/-- C9: the calculation core is a pure function of its two records: equal
`ROIInputs` and equal `WeatherSnapshot` yield an identical `ROIResult`. -/
theorem compute_deterministic (i₁ i₂ : ROIInputs) (s₁ s₂ : WeatherSnapshot)
    (hi : i₁ = i₂) (hs : s₁ = s₂) : compute i₁ s₁ = compute i₂ s₂ := by
  rw [hi, hs]

/-- Witness for C9 at the spec's scenario inputs. -/
theorem compute_deterministic_witness :
    compute ⟨5, 350, 8⟩ ⟨100, 25⟩ = compute ⟨5, 350, 8⟩ ⟨100, 25⟩ :=
  compute_deterministic ⟨5, 350, 8⟩ ⟨5, 350, 8⟩ ⟨100, 25⟩ ⟨100, 25⟩ rfl rfl

/-- C10: with cloud cover in [0,100] the cloud efficiency lies in
[0.2, 1]; the temperature efficiency never exceeds 1; hence for a
nonnegative rated power on an in-range snapshot with temperature at most
225, the actual power never exceeds the rated power. -/
theorem actual_power_bounded_by_rated (p c t : ℚ) :
    (0 ≤ c → c ≤ 100 → 2 / 10 ≤ cloud_efficiency c ∧ cloud_efficiency c ≤ 1) ∧
    temp_efficiency t ≤ 1 ∧
    (0 ≤ p → 0 ≤ c → c ≤ 100 → t ≤ 225 → actual_power p c t ≤ p) := by
  have hte1 : temp_efficiency t ≤ 1 := by
    have := heat_loss_nonneg t
    unfold temp_efficiency
    linarith
  refine ⟨fun hc0 hc1 => ?_, hte1, fun hp hc0 hc1 ht => ?_⟩
  · unfold cloud_efficiency
    constructor <;> nlinarith
  · have hce : 2 / 10 ≤ cloud_efficiency c ∧ cloud_efficiency c ≤ 1 := by
      unfold cloud_efficiency
      constructor <;> nlinarith
    have hte0 : 0 ≤ temp_efficiency t := by
      have hl : heat_loss t ≤ 1 := max_le (by norm_num) (by nlinarith)
      unfold temp_efficiency
      linarith
    have h1 : p * cloud_efficiency c ≤ p :=
      mul_le_of_le_one_right hp hce.2
    have h2 : 0 ≤ p * cloud_efficiency c :=
      mul_nonneg hp (by linarith [hce.1])
    calc actual_power p c t
        = p * cloud_efficiency c * temp_efficiency t := rfl
      _ ≤ p * cloud_efficiency c := mul_le_of_le_one_right h2 hte1
      _ ≤ p := h1

/-- Witness for C10 at rated power 5, cloud cover 40, temperature 35. -/
theorem actual_power_bounded_by_rated_witness :
    (2 / 10 ≤ cloud_efficiency 40 ∧ cloud_efficiency 40 ≤ 1) ∧
    temp_efficiency 35 ≤ 1 ∧ actual_power 5 40 35 ≤ 5 := by
  have h := actual_power_bounded_by_rated 5 40 35
  exact ⟨h.1 (by norm_num) (by norm_num), h.2.1,
    h.2.2 (by norm_num) (by norm_num) (by norm_num) (by norm_num)⟩

end SolarApp
